import Mathlib

/-!
Verification of the content-acquisition subsystem of the `ai-web-chat`
repository: a shallow embedding of `src/app/utils/scrape.ts`,
`src/app/utils/cache.ts`, `src/app/utils/search.ts` and
`src/app/utils/contentProcessor.ts`, together with theorems settling the
stated properties of the natural-language specification.

Modelling conventions:
- JavaScript strings are Lean `String`s (lengths count characters).
- External effectful collaborators (the network fetch, the cheerio DOM
  extraction, the puppeteer rendering, the Redis store) are modelled as
  oracle functions supplied in an environment record; a thrown exception is
  an `Except.error` carrying the exception message.
- Machine time (`performance.now()`, `new Date().toISOString()`) is supplied
  by the environment; its concrete values are irrelevant to every claim.
-/

/-! ## JavaScript string primitives (modelled) -/

/-- Character class of the JavaScript regex `\s` restricted to its ASCII
members (space, tab, line feed, carriage return, vertical tab, form feed);
this is the separator class used by `content.split(/\s+/)` in
`scrape.ts`. -/
def isWsChar (c : Char) : Bool :=
  c = ' ' || c = '\t' || c = '\n' || c = '\r' || c.toNat = 11 || c.toNat = 12

/-- Character class of the regex `[.!?]` used for the sentence split in
`isContentMeaningful` (`scrape.ts` line 139). -/
def isSentenceSep (c : Char) : Bool :=
  c = '.' || c = '!' || c = '?'

/-- Worker for `jsSplitRuns`: walks the character list; `skipping` records
that the previous character belonged to a separator run whose segment has
already been emitted.  Mirrors the semantics of JavaScript
`String.prototype.split` on a regex of the form `[C]+`: each maximal run of
separator characters delimits segments, and a leading or trailing run
produces an empty segment. -/
def splitRunsGo (sep : Char → Bool) : List Char → Bool → List Char → List (List Char)
  | [], skipping, acc => if skipping then [[]] else [acc.reverse]
  | c :: rest, skipping, acc =>
    if sep c then
      if skipping then splitRunsGo sep rest true []
      else acc.reverse :: splitRunsGo sep rest true []
    else
      if skipping then splitRunsGo sep rest false [c]
      else splitRunsGo sep rest false (c :: acc)

/-- JavaScript `s.split(/[C]+/)` where `sep` decides membership in the
character class `C`.  `jsSplitRuns sep ""` is `[""]`, as in JavaScript. -/
def jsSplitRuns (sep : Char → Bool) (s : String) : List String :=
  (splitRunsGo sep s.data false []).map (fun l => String.mk l)

/-- JavaScript `String.prototype.trim` (whitespace stripped from both
ends), used by `isContentMeaningful` and the title computation. -/
def jsTrim (s : String) : String :=
  String.mk (((s.data.dropWhile isWsChar).reverse.dropWhile isWsChar).reverse)

/-- Worker for `strIncludes`: does `pat` start at any suffix of the
list? -/
def strIncludesAux (pat : List Char) : List Char → Bool
  | [] => pat.isEmpty
  | c :: rest => pat.isPrefixOf (c :: rest) || strIncludesAux pat rest

/-- JavaScript `s.includes(pat)`: `pat` occurs as a contiguous substring of
`s`. -/
def strIncludes (s pat : String) : Bool :=
  strIncludesAux pat.data s.data

/-- JavaScript `s.startsWith(pat)`. -/
def strStartsWith (s pat : String) : Bool :=
  pat.data.isPrefixOf s.data

/-- JavaScript `s.split("\n\n")` (split on the literal two-newline string,
left to right, non-overlapping), used for `paragraphCount` in
`scrape.ts`. -/
def splitParagraphs : List Char → List (List Char)
  | [] => [[]]
  | [c] => [[c]]
  | c1 :: c2 :: rest =>
    if c1 = '\n' && c2 = '\n' then
      [] :: splitParagraphs rest
    else
      match splitParagraphs (c2 :: rest) with
      | [] => [[c1]]
      | seg :: segs => (c1 :: seg) :: segs

/-! ## Hash model

`scrape.ts` and `cache.ts` derive cache keys with Node's
`crypto.createHash('sha256').update(s).digest('hex')`.  The cryptographic
function itself is external library code; it is modelled here by a
deterministic function whose output, like a real sha256 hex digest, is a
string of exactly 64 hexadecimal characters.  Every theorem below relies
only on determinism (definitional in Lean) and on that length property. -/

/-- Hexadecimal digit characters `0`-`9`, `a`-`f`. -/
def hexDigitChar (n : Nat) : Char :=
  if n < 10 then Char.ofNat (48 + n) else Char.ofNat (87 + n % 16)

/-- Model of Node `crypto.createHash('sha256').update(s).digest('hex')`: a
deterministic 256-bit digest rendered as 64 hexadecimal characters. -/
def sha256hex (s : String) : String :=
  String.mk ((List.range 64).map
    (fun i => hexDigitChar ((s.data.foldl (fun a c => (a * 131 + c.toNat + 17) % 2 ^ 256) 5381) / 16 ^ (63 - i) % 16)))

/-- A (modelled) sha256 hex digest always has 64 characters. -/
theorem sha256hex_length (s : String) : (sha256hex s).length = 64 := by
  simp [sha256hex, String.length, String.mk]

/-! ## Quality Gate — `isContentMeaningful` (`scrape.ts` lines 130-156) -/

def MAX_WORKERS : Nat := 3
def MIN_CONTENT_LENGTH : Nat := 100
def MIN_SENTENCES : Nat := 3
def MIN_WORD_LENGTH : Nat := 3

/-- The blocklisted boilerplate phrases of `isContentMeaningful`. -/
def blockedPhrases : List String :=
  ["404", "Access Denied", "Please enable JavaScript", "Robot Check", "Captcha"]

/-- Shallow embedding of `isContentMeaningful` (`scrape.ts` lines 130-156).
`content.split(/\s+/)` and `content.split(/[.!?]+/)` are `jsSplitRuns`;
the floating-point test `content.length / wordCount >= MIN_WORD_LENGTH`
is rendered as the exact rational comparison
`MIN_WORD_LENGTH * wordCount <= content.length` (the word count is never
zero on the path where the division occurs, and realistic string lengths
cannot make IEEE double rounding flip this comparison). -/
def isContentMeaningful (content : String) : Bool :=
  if (jsTrim content).length == 0 then false
  else
    if (jsSplitRuns isWsChar content).length == 0 then false
    else
      decide (MIN_CONTENT_LENGTH ≤ (jsSplitRuns isWsChar content).length) &&
      decide (MIN_SENTENCES ≤ (jsSplitRuns isSentenceSep content).length) &&
      decide (MIN_WORD_LENGTH * (jsSplitRuns isWsChar content).length ≤ content.length) &&
      !(blockedPhrases.any (fun phrase => strIncludes content phrase))

example : jsSplitRuns isSentenceSep "a.b!c" = ["a", "b", "c"] := by decide
example : jsSplitRuns isSentenceSep "a.." = ["a", ""] := by decide
example : jsSplitRuns isSentenceSep "" = [""] := by decide
example : jsSplitRuns isWsChar " a  b" = ["", "a", "b"] := by decide
example : isContentMeaningful "" = false := by decide
example : isContentMeaningful "hello world. yes! sure?" = false := by decide
example : splitParagraphs "a\n\nb".data = ["a".data, "b".data] := by decide
example : strIncludes "say Captcha now" "Captcha" = true := by decide
example : strStartsWith "http://x" "http" = true := by decide

/-! ## Data model — `ScrapingResult` and friends (`scrape.ts` lines 22-46) -/

/-- The `method` discriminant of `ScrapingMetrics`
(`'cheerio' | 'puppeteer' | 'cache'`). -/
inductive MetricMethod where
  | cheerio
  | puppeteer
  | cache
deriving DecidableEq, Repr

/-- Shallow embedding of `ScrapingMetrics` (`scrape.ts` lines 22-29); time
instants are abstract `Nat`s supplied by the environment. -/
structure ScrapingMetrics where
  startTime : Nat
  cheerioAttemptTime : Option Nat
  puppeteerAttemptTime : Option Nat
  totalTime : Nat
  success : Bool
  method : MetricMethod
deriving DecidableEq, Repr

/-- The optional `contentStats` record of `ScrapingResult`
(`scrape.ts` lines 40-45).  `averageWordLength` is the floating-point ratio
`characterCount / wordCount` in the source; its rounded (floor) value is
kept — no claim depends on it. -/
structure ContentStats where
  wordCount : Nat
  characterCount : Nat
  paragraphCount : Nat
  averageWordLength : Nat
deriving DecidableEq, Repr

/-- Shallow embedding of `ScrapingResult` (`scrape.ts` lines 31-46). -/
structure ScrapingResult where
  content : String
  title : String
  success : Bool
  error : Option String
  url : String
  timestamp : String
  scrapeMethod : Option String
  metrics : Option ScrapingMetrics
  contentStats : Option ContentStats
deriving DecidableEq, Repr

/-! ## Cache keys (`scrape.ts` line 290, `cache.ts` lines 6-10 and 31-37,
`search.ts` line 110) -/

/-- `CACHE_PREFIX` of `cache.ts` (the namespace root of every stored key). -/
def CACHE_NS : String := "cache:"

/-- `SCRAPE_CACHE_PREFIX` of `cache.ts`. -/
def SCRAPE_CACHE_NS : String := CACHE_NS ++ "scrape:"

/-- `CHAT_HISTORY_PREFIX` of `cache.ts`. -/
def CHAT_HISTORY_NS : String := CACHE_NS ++ "chat:"

/-- The orchestrator's cache key for a URL:
``scrape:` + sha256(url).hexdigest` (`scrape.ts` line 290). -/
def scrapeCacheKey (url : String) : String :=
  "scrape:" ++ sha256hex url

/-- The Information Gatherer's per-URL cache key:
`SCRAPE_CACHE_PREFIX + url` (`search.ts` line 110) — note: the raw URL, not
a hash of it. -/
def gatherCacheKey (url : String) : String :=
  SCRAPE_CACHE_NS ++ url

/-- `createCacheKey` (`cache.ts` lines 31-37): throws when any argument is
falsy (the empty string), otherwise returns
`prefix + conversationId + ':' + sha256(content).hexdigest`. -/
def createCacheKey (content pfx conversationId : String) : Except String String :=
  if content == "" || pfx == "" || conversationId == "" then
    Except.error "Content, prefix, and conversationId must be provided to create a cache key."
  else
    Except.ok (pfx ++ conversationId ++ ":" ++ sha256hex content)

/-! ## Cache state

The Redis contents relevant to the orchestrator are modelled as an
association list from keys to `ScrapingResult`s; `redis.set` places the new
binding in front (overwriting lookup-wise), matching last-writer-wins. -/

abbrev Cache := List (String × ScrapingResult)

/-- Lookup of a key in the modelled store (`getCachedContent` on the scrape
namespace; the source's internal JSON round-trip and its swallowed parse
errors are invisible at this level — a present entry is returned, an absent
one yields `none`). -/
def cacheLookup (key : String) : Cache → Option ScrapingResult
  | [] => none
  | kv :: rest => if kv.1 = key then some kv.2 else cacheLookup key rest

/-- A successful `setCachedContent` on the modelled store. -/
def cacheInsert (key : String) (v : ScrapingResult) (c : Cache) : Cache :=
  (key, v) :: c

/-! ## Scrape Orchestrator — `scrapeWebContent` (`scrape.ts` lines 269-392) -/

/-- Environment of external effects for one `scrapeWebContent` run:
`fetchHtml url` models `await (await fetch(url)).text()`,
`cheerioExtract html` models `scrapeWithCheerio(html)` (the cheerio DOM
walk is external library code), `puppeteerExtract url` models
`scrapeWithPuppeteer(url)` (rendering).  An `Except.error` is a thrown
exception carrying its message.  `now` stands for every raw
`performance.now()` sample, `elapsed` for every computed
`performance.now() - metrics.startTime`, `timestamp` for
`new Date().toISOString()`. -/
structure ScrapeEnv where
  fetchHtml : String → Except String String
  cheerioExtract : String → Except String String
  puppeteerExtract : String → Except String String
  now : Nat
  elapsed : Nat
  timestamp : String

/-- Observable external actions of one `scrapeWebContent` run, in order. -/
inductive ScrapeStep where
  | cacheGet : String → ScrapeStep
  | netFetch : String → ScrapeStep
  | render : String → ScrapeStep
  | cacheSet : String → ScrapeStep
deriving DecidableEq, Repr

/-- The invalid-URL early return of `scrapeWebContent`
(`scrape.ts` lines 278-288): metrics still in their initial state. -/
def invalidUrlResult (env : ScrapeEnv) (url : String) : ScrapingResult :=
  { content := "", title := "Invalid URL", success := false,
    error := some "Invalid URL provided", url := url,
    timestamp := env.timestamp, scrapeMethod := none,
    metrics := some
      { startTime := env.now, cheerioAttemptTime := none,
        puppeteerAttemptTime := none, totalTime := 0,
        success := false, method := MetricMethod.cheerio },
    contentStats := none }

/-- The freshly computed metrics attached on a cache hit
(`scrape.ts` lines 296-298): only `method` and `totalTime` are updated from
the initial metrics, so `success` is still `false`. -/
def cacheHitMetrics (env : ScrapeEnv) : ScrapingMetrics :=
  { startTime := env.now, cheerioAttemptTime := none,
    puppeteerAttemptTime := none, totalTime := env.elapsed,
    success := false, method := MetricMethod.cache }

/-- The `contentStats` block computed on the success paths
(`scrape.ts` lines 322-327 and 354-359). -/
def mkContentStats (content : String) : ContentStats :=
  { wordCount := (jsSplitRuns isWsChar content).length,
    characterCount := content.length,
    paragraphCount := (splitParagraphs content.data).length,
    averageWordLength := content.length / (jsSplitRuns isWsChar content).length }

/-- `content.split('\n')[0]?.trim() || 'Untitled Content'`
(`scrape.ts` lines 316 and 348). -/
def mkTitle (content : String) : String :=
  if jsTrim (String.mk (content.data.takeWhile (fun c => !(c = '\n')))) = "" then
    "Untitled Content"
  else
    jsTrim (String.mk (content.data.takeWhile (fun c => !(c = '\n'))))

/-- A terminal `Success` result of the orchestrator
(`scrape.ts` lines 314-328 for the cheerio stage, 346-360 for the
puppeteer stage). -/
def successResult (env : ScrapeEnv) (url content : String) (method : MetricMethod) : ScrapingResult :=
  { content := content, title := mkTitle content, success := true,
    error := none, url := url, timestamp := env.timestamp,
    scrapeMethod := some (match method with
      | MetricMethod.cheerio => "cheerio"
      | MetricMethod.puppeteer => "puppeteer"
      | MetricMethod.cache => "cache"),
    metrics := some
      { startTime := env.now, cheerioAttemptTime := some env.now,
        puppeteerAttemptTime :=
          if method = MetricMethod.puppeteer then some env.now else none,
        totalTime := env.elapsed, success := true, method := method },
    contentStats := some (mkContentStats content) }

/-- The quality-gate double-failure return
(`scrape.ts` lines 366-377). -/
def validationFailedResult (env : ScrapeEnv) (url : String) : ScrapingResult :=
  { content := "", title := "Failed to extract meaningful content",
    success := false, error := some "Content validation failed",
    url := url, timestamp := env.timestamp, scrapeMethod := none,
    metrics := some
      { startTime := env.now, cheerioAttemptTime := some env.now,
        puppeteerAttemptTime := some env.now, totalTime := env.elapsed,
        success := false, method := MetricMethod.puppeteer },
    contentStats := none }

/-- The orchestrator's catch-all conversion of a thrown exception
(`scrape.ts` lines 378-391): `method` and the attempt timestamps reflect
how far execution got before the throw. -/
def catchResult (env : ScrapeEnv) (url e : String) (method : MetricMethod)
    (puppeteerAttempted : Bool) : ScrapingResult :=
  { content := "", title := "Scraping Failed", success := false,
    error := some e, url := url, timestamp := env.timestamp,
    scrapeMethod := none,
    metrics := some
      { startTime := env.now, cheerioAttemptTime := some env.now,
        puppeteerAttemptTime := if puppeteerAttempted then some env.now else none,
        totalTime := env.elapsed, success := false, method := method },
    contentStats := none }

/-- Shallow embedding of `scrapeWebContent` (`scrape.ts` lines 269-392).
Returns the structured result, the store contents after the run, and the
trace of external actions.  The `try`/`catch` of the source is the
propagation of `Except.error` from each oracle into `catchResult`; the
internal cache read (`getCachedContent`) cannot itself throw, because its
own body catches and logs every store or parse failure and returns `null`
(`cache.ts` lines 40-64). -/
def scrapeWebContent (env : ScrapeEnv) (cache : Cache) (url : String) :
    ScrapingResult × Cache × List ScrapeStep :=
  if url == "" || !(strStartsWith url "http") then
    (invalidUrlResult env url, cache, [])
  else
    match cacheLookup (scrapeCacheKey url) cache with
    | some cached =>
        ({ cached with metrics := some (cacheHitMetrics env) }, cache,
          [ScrapeStep.cacheGet (scrapeCacheKey url)])
    | none =>
        match env.fetchHtml url with
        | Except.error e =>
            (catchResult env url e MetricMethod.cheerio false, cache,
              [ScrapeStep.cacheGet (scrapeCacheKey url), ScrapeStep.netFetch url])
        | Except.ok html =>
          match env.cheerioExtract html with
          | Except.error e =>
              (catchResult env url e MetricMethod.cheerio false, cache,
                [ScrapeStep.cacheGet (scrapeCacheKey url), ScrapeStep.netFetch url])
          | Except.ok content =>
            if isContentMeaningful content then
              (successResult env url content MetricMethod.cheerio,
                cacheInsert (scrapeCacheKey url)
                  (successResult env url content MetricMethod.cheerio) cache,
                [ScrapeStep.cacheGet (scrapeCacheKey url),
                  ScrapeStep.netFetch url,
                  ScrapeStep.cacheSet (scrapeCacheKey url)])
            else
              match env.puppeteerExtract url with
              | Except.error e =>
                  (catchResult env url e MetricMethod.puppeteer true, cache,
                    [ScrapeStep.cacheGet (scrapeCacheKey url),
                      ScrapeStep.netFetch url, ScrapeStep.render url])
              | Except.ok dynamicContent =>
                if isContentMeaningful dynamicContent then
                  (successResult env url dynamicContent MetricMethod.puppeteer,
                    cacheInsert (scrapeCacheKey url)
                      (successResult env url dynamicContent MetricMethod.puppeteer) cache,
                    [ScrapeStep.cacheGet (scrapeCacheKey url),
                      ScrapeStep.netFetch url, ScrapeStep.render url,
                      ScrapeStep.cacheSet (scrapeCacheKey url)])
                else
                  (validationFailedResult env url, cache,
                    [ScrapeStep.cacheGet (scrapeCacheKey url),
                      ScrapeStep.netFetch url, ScrapeStep.render url])

/-! ## Cache Layer internals — `cache.ts` -/

/-- One turn of conversation (`cache.ts` lines 13-17). -/
structure ChatEntry where
  userMessage : String
  aiResponse : String
  timestamp : String
deriving DecidableEq, Repr

/-- The Redis store as seen by `cache.ts`: each primitive either succeeds
or throws (an `Except.error` carrying the message).  `stringify` models
`JSON.stringify` on a chat entry. -/
structure RedisEnv where
  setOp : String → String → Except String Unit
  lpushOp : String → String → Except String Unit
  ltrimOp : String → Nat → Nat → Except String Unit
  stringify : ChatEntry → String

/-- `CACHE_DURATION` of `cache.ts` (TTL in seconds, attached to every
`redis.set`). -/
def CACHE_DURATION : Nat := 3600

/-- The body of the `try` block of `setCachedContent`
(`cache.ts` lines 68-88): a `none` payload models `null`/`undefined`
content (the source throws on it); a `some` payload is the serialized
JSON text handed to `redis.set` (both the `ScrapingResult` branch and the
generic branch of the source end in exactly one such `redis.set`). -/
def setCachedContentBody (env : RedisEnv) (key : String) (content : Option String) :
    Except String Unit :=
  match content with
  | none => Except.error "Cannot cache null or undefined content"
  | some payload => env.setOp key payload

/-- `setCachedContent` (`cache.ts` lines 67-92): the whole body sits in a
`try` whose `catch` logs and swallows, so the function always returns
normally. -/
def setCachedContent (env : RedisEnv) (key : String) (content : Option String) :
    Except String Unit :=
  match setCachedContentBody env key content with
  | Except.error _ => Except.ok ()
  | Except.ok _ => Except.ok ()

/-- The body of the `try` block of `storeChat` (`cache.ts` lines 102-108):
serialize the entry, `lpush` it onto the per-conversation list, then
`ltrim` the list to its most recent 50 entries. -/
def storeChatBody (env : RedisEnv) (conversationId : String) (entry : ChatEntry) :
    Except String Unit :=
  match env.lpushOp (CHAT_HISTORY_NS ++ conversationId) (env.stringify entry) with
  | Except.error e => Except.error e
  | Except.ok _ => env.ltrimOp (CHAT_HISTORY_NS ++ conversationId) 0 49

/-- `storeChat` (`cache.ts` lines 95-113): the `catch` clause logs the
failure and then throws `new Error('Failed to store chat history')` — the
failure is escalated, not swallowed. -/
def storeChat (env : RedisEnv) (conversationId userMessage aiResponse timestamp : String) :
    Except String Unit :=
  match storeChatBody env conversationId
      { userMessage := userMessage, aiResponse := aiResponse, timestamp := timestamp } with
  | Except.error _ => Except.error "Failed to store chat history"
  | Except.ok _ => Except.ok ()

/-! ## Resource Pool — `BrowserPool` (`scrape.ts` lines 49-125)

A pooled browser is identified by a `Nat` session identifier; launches hand
out fresh identifiers from a counter, so a closed session's identifier is
never reissued.  Health of a live session during one `getBrowser` call is
an oracle `healthy : Nat → Bool` (the outcome of `browser.pages()`). -/

/-- One pool slot: `{ browser, lastUsed }` (`scrape.ts` line 51). -/
structure PooledBrowser where
  id : Nat
  lastUsed : Nat
deriving DecidableEq, Repr

/-- The pool's mutable state: the slot array plus the launch counter
producing fresh session identifiers. -/
structure PoolState where
  browsers : List PooledBrowser
  nextId : Nat
deriving DecidableEq, Repr

/-- `checkBrowserHealth` (`scrape.ts` lines 97-116): every slot whose
browser errors on the probe is closed and spliced out (removing the
collected indices in reverse order is exactly a filter by health). -/
def checkBrowserHealth (healthy : Nat → Bool) (st : PoolState) : PoolState :=
  { st with browsers := st.browsers.filter (fun b => healthy b.id) }

/-- The `reduce` selecting the least-recently-used slot
(`scrape.ts` lines 82-84). -/
def selectLRU (b : PooledBrowser) (bs : List PooledBrowser) : PooledBrowser :=
  bs.foldl (fun prev curr => if prev.lastUsed < curr.lastUsed then prev else curr) b

/-- `getBrowser` (`scrape.ts` lines 67-95): sweep health first; below the
cap launch a fresh session and push it; at the cap return the
least-recently-used session after updating its `lastUsed`.  Returns the
session identifier handed to the caller and the new pool state.  (The
`browsers` list is non-empty in the at-cap branch, so the `[]` arm is
unreachable.) -/
def getBrowser (healthy : Nat → Bool) (now : Nat) (st : PoolState) : Nat × PoolState :=
  if (checkBrowserHealth healthy st).browsers.length < MAX_WORKERS then
    ((checkBrowserHealth healthy st).nextId,
      { browsers := (checkBrowserHealth healthy st).browsers
          ++ [{ id := (checkBrowserHealth healthy st).nextId, lastUsed := now }],
        nextId := (checkBrowserHealth healthy st).nextId + 1 })
  else
    match (checkBrowserHealth healthy st).browsers with
    | [] => (0, checkBrowserHealth healthy st)
    | b :: bs =>
      ((selectLRU b bs).id,
        { checkBrowserHealth healthy st with
          browsers := (checkBrowserHealth healthy st).browsers.map (fun x =>
            if x.id = (selectLRU b bs).id then { x with lastUsed := now } else x) })

/-- The freshly constructed singleton pool (`browsers: [] `, no session
ever launched). -/
def initialPool : PoolState := { browsers := [], nextId := 0 }

/-- A sequence of `getBrowser` calls, each with its own health oracle and
clock sample, threaded through the pool state. -/
def runPool (calls : List ((Nat → Bool) × Nat)) (st : PoolState) : PoolState :=
  calls.foldl (fun s c => (getBrowser c.1 c.2 s).2) st

/-! ## Content Processor — `contentProcessor.ts` -/

/-- `ProcessedContent` (`contentProcessor.ts` lines 6-13). -/
structure ProcessedContent where
  content : String
  wasFiltered : Bool
  filterReason : Option String
deriving DecidableEq, Repr

/-- The length of `dropWhile` never exceeds the input's length. -/
theorem listLengthDropWhileLe (p : Char → Bool) (l : List Char) :
    (l.dropWhile p).length ≤ l.length := by
  induction l with
  | nil => simp
  | cons c cs ih =>
    rw [List.dropWhile_cons]
    split
    · exact Nat.le_succ_of_le ih
    · exact Nat.le_refl _

/-- The punctuation class of the regex `([!?,.]){2,}` in
`sanitizeContent`. -/
def isPunctChar (c : Char) : Bool :=
  c = '!' || c = '?' || c = ',' || c = '.'

/-- `.replace(/```json|```/g, '')`: at each position the alternation tries
the longer fence first; matched fences are deleted. -/
def stripFences : List Char → List Char
  | [] => []
  | c :: rest =>
    if ("```json".data).isPrefixOf (c :: rest) then
      stripFences ((c :: rest).drop 7)
    else if ("```".data).isPrefixOf (c :: rest) then
      stripFences ((c :: rest).drop 3)
    else
      c :: stripFences rest
termination_by cs => cs.length
decreasing_by
  all_goals simp [List.length_drop]
  all_goals omega

/-- `.replace(/<[^>]*>/g, '')`: an opening `<` with a later `>` deletes
everything through the first such `>`; a `<` with no closing `>` never
matches and is kept. -/
def stripTags : List Char → List Char
  | [] => []
  | c :: rest =>
    if c = '<' && rest.any (fun x => x = '>') then
      stripTags ((rest.dropWhile (fun x => !(x = '>'))).drop 1)
    else
      c :: stripTags rest
termination_by cs => cs.length
decreasing_by
  · simp
    have h1 := listLengthDropWhileLe (fun x => !(x = '>')) rest
    omega
  · simp

/-- `.replace(/\s+/g, ' ')`: each maximal whitespace run becomes a single
space. -/
def collapseWs : List Char → List Char
  | [] => []
  | c :: rest =>
    if isWsChar c then ' ' :: collapseWs (rest.dropWhile isWsChar)
    else c :: collapseWs rest
termination_by cs => cs.length
decreasing_by
  all_goals simp
  have h1 := listLengthDropWhileLe isWsChar rest
  omega

/-- `.replace(/([!?,.]){2,}/g, '$1')`: a run of two or more punctuation
characters collapses to its last character (the capture group keeps its
last iteration). -/
def collapsePunct : List Char → List Char
  | [] => []
  | c :: rest =>
    if isPunctChar c && (match rest with | r :: _ => isPunctChar r | [] => false) then
      (rest.takeWhile isPunctChar).getLastD c :: collapsePunct (rest.dropWhile isPunctChar)
    else
      c :: collapsePunct rest
termination_by cs => cs.length
decreasing_by
  all_goals simp
  have h1 := listLengthDropWhileLe isPunctChar rest
  omega

/-- `.replace(/['“”]/g, '"')`: straight apostrophes and curly double quotes
become straight double quotes. -/
def normalizeQuotes (cs : List Char) : List Char :=
  cs.map (fun c =>
    if c = Char.ofNat 39 || c = Char.ofNat 0x201C || c = Char.ofNat 0x201D then '"' else c)

/-- `.replace(/[\x00-\x1F\x7F-\x9F]/g, '')`: non-printable control
characters are removed. -/
def stripControl (cs : List Char) : List Char :=
  cs.filter (fun c =>
    !(decide (c.toNat ≤ 31) || (decide (127 ≤ c.toNat) && decide (c.toNat ≤ 159))))

/-- `sanitizeContent` (`contentProcessor.ts` lines 46-61): the replacement
pipeline followed by `.trim()`. -/
def sanitizeContent (s : String) : String :=
  jsTrim (String.mk (stripControl (normalizeQuotes (collapsePunct (collapseWs (stripTags (stripFences s.data)))))))

/-- The fixed truncation marker of `processContentForAI`
(`contentProcessor.ts` line 37). -/
def truncationSuffix : String := "... (content truncated for length)"

/-- `processContentForAI` (`contentProcessor.ts` lines 23-44): combine the
results with source attribution, sanitize, and cap the length at 30,000
characters, appending the truncation marker when the cap bites. -/
def processContentForAI (scrapingResults : List ScrapingResult) : ProcessedContent :=
  { content :=
      if 30000 < (sanitizeContent (String.intercalate "\n\n---\n\n"
          (scrapingResults.map (fun result =>
            (if result.url == "" then "" else "Source: " ++ result.url ++ "\n")
              ++ result.content)))).length then
        String.mk ((sanitizeContent (String.intercalate "\n\n---\n\n"
          (scrapingResults.map (fun result =>
            (if result.url == "" then "" else "Source: " ++ result.url ++ "\n")
              ++ result.content)))).data.take 30000) ++ truncationSuffix
      else
        sanitizeContent (String.intercalate "\n\n---\n\n"
          (scrapingResults.map (fun result =>
            (if result.url == "" then "" else "Source: " ++ result.url ++ "\n")
              ++ result.content))),
    wasFiltered := false,
    filterReason := none }

/-! ## Claim C5 — the sentence-count floor of the Quality Gate -/

/-- C5. For every input text whose sentence count — computed by splitting
on runs of the characters `.` `!` `?` — is below 3 (`MIN_SENTENCES`), the
Quality Gate `isContentMeaningful` returns `false`, regardless of the other
features of the text. -/
theorem quality_gate_needs_three_sentences (content : String)
    (h : (jsSplitRuns isSentenceSep content).length < MIN_SENTENCES) :
    isContentMeaningful content = false := by
  unfold isContentMeaningful
  split
  · rfl
  · split
    · rfl
    · have hs : decide (MIN_SENTENCES ≤ (jsSplitRuns isSentenceSep content).length) = false := by
        simp only [decide_eq_false_iff_not, Nat.not_le]
        exact h
      rw [hs]
      simp

/-- C5 witness: `"hi there"` has a single sentence segment, and the gate
rejects it. -/
theorem quality_gate_needs_three_sentences_witness :
    (jsSplitRuns isSentenceSep "hi there").length < MIN_SENTENCES
    ∧ isContentMeaningful "hi there" = false :=
  ⟨by decide, quality_gate_needs_three_sentences "hi there" (by decide)⟩

/-! ## Claim C8 — the Content Processor's hard length cap -/

/-- C8. For every input list of scraping results, of any combined size, the
`content` field returned by `processContentForAI` is never longer than
30,000 characters plus the length of the fixed truncation suffix
`'... (content truncated for length)'`. -/
theorem processor_output_length_bounded (scrapingResults : List ScrapingResult) :
    (processContentForAI scrapingResults).content.length
      ≤ 30000 + truncationSuffix.length := by
  unfold processContentForAI
  dsimp only
  split
  · rw [String.length_append]
    have ht : (String.mk ((sanitizeContent (String.intercalate "\n\n---\n\n"
        (scrapingResults.map (fun result =>
          (if result.url == "" then "" else "Source: " ++ result.url ++ "\n")
            ++ result.content)))).data.take 30000)).length
        = min 30000 (sanitizeContent (String.intercalate "\n\n---\n\n"
        (scrapingResults.map (fun result =>
          (if result.url == "" then "" else "Source: " ++ result.url ++ "\n")
            ++ result.content)))).data.length := List.length_take _ _
    rw [ht]
    have := Nat.min_le_left 30000 (sanitizeContent (String.intercalate "\n\n---\n\n"
        (scrapingResults.map (fun result =>
          (if result.url == "" then "" else "Source: " ++ result.url ++ "\n")
            ++ result.content)))).data.length
    omega
  · omega

/-! ## Claim C4 — cache-key derivation (corrected)

The orchestrator's scrape key and `createCacheKey` are content-addressed
(`prefix + hash` and `prefix + conversationId + ':' + hash` respectively),
but the Information Gatherer's per-URL key (`search.ts` line 110) is
`SCRAPE_CACHE_PREFIX + url` — the raw URL, with no hash.  The
counterexample below exploits only that a sha256 hex digest has 64
characters while the URL does not. -/

/-- C4 counterexample: at the concrete URL `"http://a"` the Information
Gatherer's cache key is not of the claimed form `prefix + hash(url)`. -/
theorem gatherer_key_not_content_addressed :
    gatherCacheKey "http://a" ≠ SCRAPE_CACHE_NS ++ sha256hex "http://a" := by
  intro h
  have hlen := congrArg String.length h
  rw [String.length_append] at hlen
  have h64 := sha256hex_length "http://a"
  have hurl : (gatherCacheKey "http://a").length = SCRAPE_CACHE_NS.length + 8 := by decide
  omega

/-- C4 amended: the orchestrator's scrape key is `"scrape:" + hash(url)`
and `createCacheKey` yields `prefix + conversationId + ':' + hash(content)`
(both content-addressed and deterministic), but the Information Gatherer's
per-URL key is `SCRAPE_CACHE_PREFIX + url` — deterministic yet not hashed,
and distinct from the hashed form whenever the URL's length is not 64. -/
theorem cache_key_derivations :
    (∀ url, scrapeCacheKey url = "scrape:" ++ sha256hex url)
    ∧ (∀ content pfx conversationId,
        (content == "" || pfx == "" || conversationId == "") = false →
        createCacheKey content pfx conversationId
          = Except.ok (pfx ++ conversationId ++ ":" ++ sha256hex content))
    ∧ (∀ url, gatherCacheKey url = SCRAPE_CACHE_NS ++ url)
    ∧ (∀ url, url.length ≠ 64 →
        gatherCacheKey url ≠ SCRAPE_CACHE_NS ++ sha256hex url) := by
  refine ⟨fun url => rfl, fun content pfx conversationId h => ?_, fun url => rfl,
    fun url hlen h => ?_⟩
  · unfold createCacheKey
    rw [h]
    simp
  · have hl := congrArg String.length h
    rw [gatherCacheKey, String.length_append, String.length_append,
      sha256hex_length] at hl
    omega

/-- C4 amended witness: concrete instances of all four parts. -/
theorem cache_key_derivations_witness :
    scrapeCacheKey "u" = "scrape:" ++ sha256hex "u"
    ∧ createCacheKey "c" "p" "i" = Except.ok ("p" ++ "i" ++ ":" ++ sha256hex "c")
    ∧ gatherCacheKey "u" = SCRAPE_CACHE_NS ++ "u"
    ∧ gatherCacheKey "http://a" ≠ SCRAPE_CACHE_NS ++ sha256hex "http://a" :=
  ⟨cache_key_derivations.1 "u",
   cache_key_derivations.2.1 "c" "p" "i" (by decide),
   cache_key_derivations.2.2.1 "u",
   cache_key_derivations.2.2.2 "http://a" (by decide)⟩

/-! ## Claim C7 — cache-layer write failures (corrected)

`setCachedContent` indeed swallows every storage failure, but `storeChat`'s
`catch` clause logs and then throws `new Error('Failed to store chat
history')` (`cache.ts` line 111), so chat-history append failures are
escalated to the caller. -/

/-- A Redis store whose list push is down. -/
def lpushFailRedis : RedisEnv :=
  { setOp := fun _ _ => Except.ok (),
    lpushOp := fun _ _ => Except.error "ECONNREFUSED",
    ltrimOp := fun _ _ _ => Except.ok (),
    stringify := fun _ => "entry" }

/-- C7 counterexample: with the list push throwing, `storeChat` does not
return normally — it throws `'Failed to store chat history'`. -/
theorem storeChat_escalates_failure :
    storeChat lpushFailRedis "conv" "hi" "hello" "2024-01-01T00:00:00Z"
      = Except.error "Failed to store chat history" := rfl

/-- C7 amended: `setCachedContent` returns normally for every key, payload
and store behaviour (storage failures are logged and swallowed), while
`storeChat` converts any failure of its `try` body into the thrown error
`'Failed to store chat history'` — escalated to the caller, not
swallowed. -/
theorem cache_write_failure_handling (env : RedisEnv) (key : String)
    (content : Option String)
    (conversationId userMessage aiResponse timestamp : String) :
    setCachedContent env key content = Except.ok ()
    ∧ (∀ e, storeChatBody env conversationId
          { userMessage := userMessage, aiResponse := aiResponse,
            timestamp := timestamp } = Except.error e →
        storeChat env conversationId userMessage aiResponse timestamp
          = Except.error "Failed to store chat history") := by
  constructor
  · unfold setCachedContent
    cases h : setCachedContentBody env key content <;> rfl
  · intro e he
    unfold storeChat
    rw [he]

/-- C7 amended witness: concrete instantiation against the failing
store. -/
theorem cache_write_failure_handling_witness :
    setCachedContent lpushFailRedis "k" none = Except.ok ()
    ∧ storeChat lpushFailRedis "conv2" "u" "a" "t"
        = Except.error "Failed to store chat history" :=
  ⟨(cache_write_failure_handling lpushFailRedis "k" none "conv2" "u" "a" "t").1,
   (cache_write_failure_handling lpushFailRedis "k" none "conv2" "u" "a" "t").2
     "ECONNREFUSED" rfl⟩

/-! ## Claim C1 — the orchestrator boundary catches every exception -/

/-- C1. `scrapeWebContent` never raises (the embedding is a total function
returning a structured result): a thrown exception during the network
fetch, the static extraction, or the dynamic extraction is converted into a
result with `success = false` whose `error` field carries the exception's
message.  (The cache lookup cannot itself throw: `getCachedContent` catches
and logs every store or parse failure internally and returns `null`.) -/
theorem scrape_converts_exceptions (env : ScrapeEnv) (cache : Cache) (url : String)
    (hvalid : (url == "" || !(strStartsWith url "http")) = false)
    (hmiss : cacheLookup (scrapeCacheKey url) cache = none) :
    (∀ e, env.fetchHtml url = Except.error e →
      (scrapeWebContent env cache url).1.success = false
      ∧ (scrapeWebContent env cache url).1.error = some e)
    ∧ (∀ html e, env.fetchHtml url = Except.ok html →
        env.cheerioExtract html = Except.error e →
        (scrapeWebContent env cache url).1.success = false
        ∧ (scrapeWebContent env cache url).1.error = some e)
    ∧ (∀ html content e, env.fetchHtml url = Except.ok html →
        env.cheerioExtract html = Except.ok content →
        isContentMeaningful content = false →
        env.puppeteerExtract url = Except.error e →
        (scrapeWebContent env cache url).1.success = false
        ∧ (scrapeWebContent env cache url).1.error = some e) := by
  refine ⟨fun e he => ?_, fun html e hh he => ?_, fun html content e hh hc hm hp => ?_⟩
  · constructor <;>
      simp [scrapeWebContent, hvalid, hmiss, he, catchResult]
  · constructor <;>
      simp [scrapeWebContent, hvalid, hmiss, hh, he, catchResult]
  · constructor <;>
      simp [scrapeWebContent, hvalid, hmiss, hh, hc, hm, hp, catchResult]

/-- An environment whose network fetch throws. -/
def envFetchFail : ScrapeEnv :=
  { fetchHtml := fun _ => Except.error "network down",
    cheerioExtract := fun _ => Except.ok "",
    puppeteerExtract := fun _ => Except.ok "",
    now := 0, elapsed := 0, timestamp := "2024-01-01T00:00:00Z" }

/-- C1 witness: a concrete run whose fetch throws yields a failure result
carrying the thrown message. -/
theorem scrape_converts_exceptions_witness :
    ((("http://a" : String) == "" || !(strStartsWith "http://a" "http")) = false)
    ∧ (scrapeWebContent envFetchFail [] "http://a").1.success = false
    ∧ (scrapeWebContent envFetchFail [] "http://a").1.error = some "network down" :=
  ⟨by decide,
   ((scrape_converts_exceptions envFetchFail [] "http://a" (by decide) rfl).1
     "network down" rfl).1,
   ((scrape_converts_exceptions envFetchFail [] "http://a" (by decide) rfl).1
     "network down" rfl).2⟩

/-! ## Claim C10 — the cache-hit frame condition -/

/-- C10. On a cache hit, `scrapeWebContent` returns the cached result with
only its `metrics` field replaced by freshly computed metrics whose
`method` is `cache`; `content`, `title`, `success`, `error`, `url`,
`timestamp`, `scrapeMethod` and `contentStats` are all returned unchanged,
the store is untouched and the only external action is the cache read. -/
theorem scrape_cache_hit_frame (env : ScrapeEnv) (cache : Cache) (url : String)
    (v : ScrapingResult)
    (hvalid : (url == "" || !(strStartsWith url "http")) = false)
    (hhit : cacheLookup (scrapeCacheKey url) cache = some v) :
    (scrapeWebContent env cache url).1.content = v.content
    ∧ (scrapeWebContent env cache url).1.title = v.title
    ∧ (scrapeWebContent env cache url).1.success = v.success
    ∧ (scrapeWebContent env cache url).1.error = v.error
    ∧ (scrapeWebContent env cache url).1.url = v.url
    ∧ (scrapeWebContent env cache url).1.timestamp = v.timestamp
    ∧ (scrapeWebContent env cache url).1.scrapeMethod = v.scrapeMethod
    ∧ (scrapeWebContent env cache url).1.contentStats = v.contentStats
    ∧ (scrapeWebContent env cache url).1.metrics = some (cacheHitMetrics env)
    ∧ (cacheHitMetrics env).method = MetricMethod.cache
    ∧ (scrapeWebContent env cache url).2.1 = cache
    ∧ (scrapeWebContent env cache url).2.2 = [ScrapeStep.cacheGet (scrapeCacheKey url)] := by
  refine ⟨?_, ?_, ?_, ?_, ?_, ?_, ?_, ?_, ?_, rfl, ?_, ?_⟩ <;>
    simp [scrapeWebContent, hvalid, hhit]

/-- A quiescent environment: every oracle succeeds with the empty string
(which the Quality Gate rejects). -/
def envEmptyOk : ScrapeEnv :=
  { fetchHtml := fun _ => Except.ok "",
    cheerioExtract := fun _ => Except.ok "",
    puppeteerExtract := fun _ => Except.ok "",
    now := 0, elapsed := 0, timestamp := "2024-01-01T00:00:00Z" }

/-- A sample cached payload, as written by an earlier cheerio success. -/
def sampleCached : ScrapingResult :=
  { content := "cached content", title := "cached title", success := true,
    error := none, url := "http://a", timestamp := "2023-12-31T00:00:00Z",
    scrapeMethod := some "cheerio", metrics := none, contentStats := none }

/-- C10 witness: with `sampleCached` stored under the scrape key of
`"http://a"`, the returned `scrapeMethod` is still `"cheerio"` and the
store is unchanged. -/
theorem scrape_cache_hit_frame_witness :
    cacheLookup (scrapeCacheKey "http://a")
        [(scrapeCacheKey "http://a", sampleCached)] = some sampleCached
    ∧ (scrapeWebContent envEmptyOk
        [(scrapeCacheKey "http://a", sampleCached)] "http://a").1.scrapeMethod
        = sampleCached.scrapeMethod
    ∧ (scrapeWebContent envEmptyOk
        [(scrapeCacheKey "http://a", sampleCached)] "http://a").2.1
        = [(scrapeCacheKey "http://a", sampleCached)] :=
  ⟨by simp [cacheLookup],
   (scrape_cache_hit_frame envEmptyOk _ "http://a" sampleCached (by decide)
     (by simp [cacheLookup])).2.2.2.2.2.2.1,
   (scrape_cache_hit_frame envEmptyOk _ "http://a" sampleCached (by decide)
     (by simp [cacheLookup])).2.2.2.2.2.2.2.2.2.2.1⟩

/-! ## Claim C6 — double validation failure is terminal and not cached -/

/-- C6. When both the static and the dynamic extraction produce content
rejected by the Quality Gate, `scrapeWebContent` returns `success = false`
with `error = "Content validation failed"`, and the cache state is
unchanged (the trace shows no cache write). -/
theorem scrape_validation_failure_not_cached (env : ScrapeEnv) (cache : Cache)
    (url html content dynamicContent : String)
    (hvalid : (url == "" || !(strStartsWith url "http")) = false)
    (hmiss : cacheLookup (scrapeCacheKey url) cache = none)
    (hf : env.fetchHtml url = Except.ok html)
    (hc : env.cheerioExtract html = Except.ok content)
    (hm1 : isContentMeaningful content = false)
    (hp : env.puppeteerExtract url = Except.ok dynamicContent)
    (hm2 : isContentMeaningful dynamicContent = false) :
    (scrapeWebContent env cache url).1.success = false
    ∧ (scrapeWebContent env cache url).1.error = some "Content validation failed"
    ∧ (scrapeWebContent env cache url).2.1 = cache
    ∧ (scrapeWebContent env cache url).2.2 =
        [ScrapeStep.cacheGet (scrapeCacheKey url), ScrapeStep.netFetch url,
          ScrapeStep.render url] := by
  refine ⟨?_, ?_, ?_, ?_⟩ <;>
    simp [scrapeWebContent, hvalid, hmiss, hf, hc, hm1, hp, hm2,
      validationFailedResult]

/-- C6 witness: both extractions return the empty string, which the gate
rejects; the run fails with the validation error and an empty store stays
empty. -/
theorem scrape_validation_failure_not_cached_witness :
    isContentMeaningful "" = false
    ∧ (scrapeWebContent envEmptyOk [] "http://a").1.error
        = some "Content validation failed"
    ∧ (scrapeWebContent envEmptyOk [] "http://a").2.1 = [] :=
  ⟨by decide,
   (scrape_validation_failure_not_cached envEmptyOk [] "http://a" "" "" ""
     (by decide) rfl rfl rfl (by decide) rfl (by decide)).2.1,
   (scrape_validation_failure_not_cached envEmptyOk [] "http://a" "" "" ""
     (by decide) rfl rfl rfl (by decide) rfl (by decide)).2.2.1⟩

/-! ## Claim C2 — success ⇔ non-empty gate-passing content; every failure
result carries empty content -/

/-- The iff half of claim C2 on a single result: `success = true` exactly
when the `content` field is non-empty and passes the Quality Gate. -/
def resultMeaningful (r : ScrapingResult) : Prop :=
  r.success = true ↔ (r.content ≠ "" ∧ isContentMeaningful r.content = true)

/-- The full claim-C2 invariant on a single result: the iff, together with
the claim's "in particular" clause — a failure result carries empty
content. -/
def resultWF (r : ScrapingResult) : Prop :=
  resultMeaningful r ∧ (r.success = false → r.content = "")

/-- A store is well-formed when every entry satisfies the full C2
invariant.  Every entry the orchestrator itself writes does — only
gate-passing success results are ever cached (see the preservation half of
the theorem below) — so the hypothesis is self-sustaining from the empty
store. -/
def cacheWF (c : Cache) : Prop := ∀ kv ∈ c, resultWF kv.2

/-- Content accepted by the Quality Gate is non-empty (the gate's first
clause rejects empty or whitespace-only text). -/
theorem meaningful_ne_empty {c : String} (h : isContentMeaningful c = true) :
    c ≠ "" := by
  intro hc
  rw [hc] at h
  exact absurd h (by decide)

/-- A lookup in a well-formed store returns an invariant-satisfying
result. -/
theorem cacheLookup_wf {key : String} {c : Cache} {v : ScrapingResult}
    (hwf : cacheWF c) (h : cacheLookup key c = some v) : resultWF v := by
  induction c with
  | nil => simp [cacheLookup] at h
  | cons kv rest ih =>
    rw [cacheLookup] at h
    split at h
    · cases h
      exact hwf kv (List.mem_cons_self kv rest)
    · exact ih (fun p hp => hwf p (List.mem_cons_of_mem kv hp)) h

/-- Inserting an invariant-satisfying result preserves store
well-formedness. -/
theorem cacheWF_insert {c : Cache} {key : String} {r : ScrapingResult}
    (hwf : cacheWF c) (hr : resultWF r) : cacheWF (cacheInsert key r c) := by
  intro kv hkv
  rcases List.mem_cons.mp hkv with h | h
  · rw [h]
    exact hr
  · exact hwf kv h

/-- A terminal Success result satisfies the C2 iff. -/
theorem successResult_meaningful (env : ScrapeEnv) (url content : String)
    (method : MetricMethod) (hm : isContentMeaningful content = true) :
    resultMeaningful (successResult env url content method) := by
  unfold resultMeaningful successResult
  simp
  exact ⟨meaningful_ne_empty hm, hm⟩

/-- A terminal Success result satisfies the full C2 invariant (its
failure clause is vacuous). -/
theorem successResult_wf (env : ScrapeEnv) (url content : String)
    (method : MetricMethod) (hm : isContentMeaningful content = true) :
    resultWF (successResult env url content method) := by
  refine ⟨successResult_meaningful env url content method hm, ?_⟩
  intro h
  simp [successResult] at h

/-- C2. Every result returned by `scrapeWebContent` on a well-formed store
satisfies `success = true ⇔ content is non-empty and passed the Quality
Gate`, and — in particular — every result with `success = false` has empty
content; moreover the store stays well-formed, since the orchestrator
writes only gate-passing success results. -/
theorem scrape_success_iff_meaningful (env : ScrapeEnv) (cache : Cache)
    (url : String) (hwf : cacheWF cache) :
    ((scrapeWebContent env cache url).1.success = true
      ↔ ((scrapeWebContent env cache url).1.content ≠ ""
          ∧ isContentMeaningful (scrapeWebContent env cache url).1.content = true))
    ∧ ((scrapeWebContent env cache url).1.success = false
        → (scrapeWebContent env cache url).1.content = "")
    ∧ cacheWF (scrapeWebContent env cache url).2.1 := by
  by_cases hv : (url == "" || !(strStartsWith url "http")) = true
  · refine ⟨?_, ?_, ?_⟩
    · simp [scrapeWebContent, hv, invalidUrlResult]
    · simp [scrapeWebContent, hv, invalidUrlResult]
    · simpa [scrapeWebContent, hv] using hwf
  · have hv' : (url == "" || !(strStartsWith url "http")) = false := by
      simpa using hv
    rcases h1 : cacheLookup (scrapeCacheKey url) cache with _ | v
    · rcases h2 : env.fetchHtml url with e | html
      · refine ⟨?_, ?_, ?_⟩
        · simp [scrapeWebContent, hv', h1, h2, catchResult]
        · simp [scrapeWebContent, hv', h1, h2, catchResult]
        · simpa [scrapeWebContent, hv', h1, h2] using hwf
      · rcases h3 : env.cheerioExtract html with e | content
        · refine ⟨?_, ?_, ?_⟩
          · simp [scrapeWebContent, hv', h1, h2, h3, catchResult]
          · simp [scrapeWebContent, hv', h1, h2, h3, catchResult]
          · simpa [scrapeWebContent, hv', h1, h2, h3] using hwf
        · by_cases hm : isContentMeaningful content = true
          · refine ⟨?_, ?_, ?_⟩
            · have hiff := successResult_meaningful env url content
                MetricMethod.cheerio hm
              unfold resultMeaningful at hiff
              simpa [scrapeWebContent, hv', h1, h2, h3, hm] using hiff
            · simp [scrapeWebContent, hv', h1, h2, h3, hm, successResult]
            · simpa [scrapeWebContent, hv', h1, h2, h3, hm] using
                cacheWF_insert hwf
                  (successResult_wf env url content MetricMethod.cheerio hm)
          · have hm' : isContentMeaningful content = false := by
              simpa using hm
            rcases h4 : env.puppeteerExtract url with e | dynamicContent
            · refine ⟨?_, ?_, ?_⟩
              · simp [scrapeWebContent, hv', h1, h2, h3, hm', h4, catchResult]
              · simp [scrapeWebContent, hv', h1, h2, h3, hm', h4, catchResult]
              · simpa [scrapeWebContent, hv', h1, h2, h3, hm', h4] using hwf
            · by_cases hd : isContentMeaningful dynamicContent = true
              · refine ⟨?_, ?_, ?_⟩
                · have hiff := successResult_meaningful env url dynamicContent
                    MetricMethod.puppeteer hd
                  unfold resultMeaningful at hiff
                  simpa [scrapeWebContent, hv', h1, h2, h3, hm', h4, hd] using hiff
                · simp [scrapeWebContent, hv', h1, h2, h3, hm', h4, hd,
                    successResult]
                · simpa [scrapeWebContent, hv', h1, h2, h3, hm', h4, hd] using
                    cacheWF_insert hwf
                      (successResult_wf env url dynamicContent
                        MetricMethod.puppeteer hd)
              · have hd' : isContentMeaningful dynamicContent = false := by
                  simpa using hd
                refine ⟨?_, ?_, ?_⟩
                · simp [scrapeWebContent, hv', h1, h2, h3, hm', h4, hd',
                    validationFailedResult]
                · simp [scrapeWebContent, hv', h1, h2, h3, hm', h4, hd',
                    validationFailedResult]
                · simpa [scrapeWebContent, hv', h1, h2, h3, hm', h4, hd'] using hwf
    · refine ⟨?_, ?_, ?_⟩
      · have hiff := (cacheLookup_wf hwf h1).1
        unfold resultMeaningful at hiff
        simpa [scrapeWebContent, hv', h1] using hiff
      · have hfail := (cacheLookup_wf hwf h1).2
        simpa [scrapeWebContent, hv', h1] using hfail
      · simpa [scrapeWebContent, hv', h1] using hwf

/-- C2 witness: the empty store is well-formed, and on a concrete run that
fails both extractions the returned failure result indeed has empty
content. -/
theorem scrape_success_iff_meaningful_witness :
    cacheWF []
    ∧ ((scrapeWebContent envEmptyOk [] "http://a").1.success = false
        → (scrapeWebContent envEmptyOk [] "http://a").1.content = "") :=
  ⟨fun kv hkv => absurd hkv (List.not_mem_nil kv),
   (scrape_success_iff_meaningful envEmptyOk [] "http://a"
     (fun kv hkv => absurd hkv (List.not_mem_nil kv))).2.1⟩

/-! ## Claim C3 — a first successful call populates the cache; a second
call is served from it -/

/-- After a valid-URL cache-miss run that reports success, the returned
result is stored under the URL's scrape key (both success paths write
through before returning). -/
theorem scrape_success_caches (env : ScrapeEnv) (cache : Cache) (url : String)
    (hvalid : (url == "" || !(strStartsWith url "http")) = false)
    (hmiss : cacheLookup (scrapeCacheKey url) cache = none)
    (hsucc : (scrapeWebContent env cache url).1.success = true) :
    cacheLookup (scrapeCacheKey url) (scrapeWebContent env cache url).2.1
      = some (scrapeWebContent env cache url).1 := by
  rcases h2 : env.fetchHtml url with e | html
  · exfalso
    simp [scrapeWebContent, hvalid, hmiss, h2, catchResult] at hsucc
  · rcases h3 : env.cheerioExtract html with e | content
    · exfalso
      simp [scrapeWebContent, hvalid, hmiss, h2, h3, catchResult] at hsucc
    · by_cases hm : isContentMeaningful content = true
      · simp [scrapeWebContent, hvalid, hmiss, h2, h3, hm, cacheInsert, cacheLookup]
      · have hm' : isContentMeaningful content = false := by simpa using hm
        rcases h4 : env.puppeteerExtract url with e | dynamicContent
        · exfalso
          simp [scrapeWebContent, hvalid, hmiss, h2, h3, hm', h4, catchResult] at hsucc
        · by_cases hd : isContentMeaningful dynamicContent = true
          · simp [scrapeWebContent, hvalid, hmiss, h2, h3, hm', h4, hd,
              cacheInsert, cacheLookup]
          · exfalso
            have hd' : isContentMeaningful dynamicContent = false := by simpa using hd
            simp [scrapeWebContent, hvalid, hmiss, h2, h3, hm', h4, hd',
              validationFailedResult] at hsucc

/-- C3. If a first call to `scrapeWebContent` on a URL populated the cache
(a cache-miss run that reported success), a second call on the same URL —
under any environment whatsoever — returns the cached payload with
identical `content` and `success`, reports `method = cache`, leaves the
store unchanged, and performs no network fetch and no rendering call (its
trace is exactly the one cache read). -/
theorem scrape_idempotent_after_cache (env1 env2 : ScrapeEnv) (cache : Cache)
    (url : String)
    (hvalid : (url == "" || !(strStartsWith url "http")) = false)
    (hmiss : cacheLookup (scrapeCacheKey url) cache = none)
    (hsucc : (scrapeWebContent env1 cache url).1.success = true) :
    (scrapeWebContent env2 (scrapeWebContent env1 cache url).2.1 url).1.content
      = (scrapeWebContent env1 cache url).1.content
    ∧ (scrapeWebContent env2 (scrapeWebContent env1 cache url).2.1 url).1.success
      = (scrapeWebContent env1 cache url).1.success
    ∧ Option.map ScrapingMetrics.method
        (scrapeWebContent env2 (scrapeWebContent env1 cache url).2.1 url).1.metrics
      = some MetricMethod.cache
    ∧ (scrapeWebContent env2 (scrapeWebContent env1 cache url).2.1 url).2.1
      = (scrapeWebContent env1 cache url).2.1
    ∧ (scrapeWebContent env2 (scrapeWebContent env1 cache url).2.1 url).2.2
      = [ScrapeStep.cacheGet (scrapeCacheKey url)] := by
  set p := scrapeWebContent env1 cache url with hp
  have hhit : cacheLookup (scrapeCacheKey url) p.2.1 = some p.1 :=
    scrape_success_caches env1 cache url hvalid hmiss hsucc
  refine ⟨?_, ?_, ?_, ?_, ?_⟩ <;>
    simp [scrapeWebContent, hvalid, hhit, cacheHitMetrics]

/-- A 100-word, 100-sentence text the Quality Gate accepts. -/
def sampleMeaningful : String :=
  String.mk (List.flatten (List.replicate 100 ['a', 'b', '.', ' ']))

/-- An environment whose static extraction yields gate-passing content. -/
def envCheerioOk : ScrapeEnv :=
  { fetchHtml := fun _ => Except.ok "<html>",
    cheerioExtract := fun _ => Except.ok sampleMeaningful,
    puppeteerExtract := fun _ => Except.ok "",
    now := 0, elapsed := 0, timestamp := "2024-01-01T00:00:00Z" }

set_option maxRecDepth 10000 in
/-- C3 witness: a concrete first call succeeds via cheerio; the second
call — under an environment whose network fetch would throw — still
returns the same `success` and reports `method = cache`. -/
theorem scrape_idempotent_after_cache_witness :
    (scrapeWebContent envCheerioOk [] "http://a").1.success = true
    ∧ (scrapeWebContent envFetchFail
        (scrapeWebContent envCheerioOk [] "http://a").2.1 "http://a").1.success
      = (scrapeWebContent envCheerioOk [] "http://a").1.success
    ∧ Option.map ScrapingMetrics.method
        (scrapeWebContent envFetchFail
          (scrapeWebContent envCheerioOk [] "http://a").2.1 "http://a").1.metrics
      = some MetricMethod.cache :=
  ⟨by decide,
   (scrape_idempotent_after_cache envCheerioOk envFetchFail [] "http://a"
     (by decide) rfl (by decide)).2.1,
   (scrape_idempotent_after_cache envCheerioOk envFetchFail [] "http://a"
     (by decide) rfl (by decide)).2.2.1⟩

/-! ## Claim C9 — the Resource Pool cap, LRU sharing and eviction -/

/-- Well-formedness of a pool state: at most `MAX_WORKERS` live sessions,
every pooled identifier below the launch counter (identifiers are never
reissued), and pairwise-distinct identifiers. -/
def poolWF (st : PoolState) : Prop :=
  st.browsers.length ≤ MAX_WORKERS
  ∧ (∀ b ∈ st.browsers, b.id < st.nextId)
  ∧ st.browsers.Pairwise (fun a b => a.id ≠ b.id)

/-- The `reduce` of `getBrowser` returns one of the pooled slots. -/
theorem selectLRU_mem (b : PooledBrowser) (bs : List PooledBrowser) :
    selectLRU b bs ∈ b :: bs := by
  induction bs generalizing b with
  | nil => simp [selectLRU]
  | cons c cs ih =>
    have heq : selectLRU b (c :: cs)
        = selectLRU (if b.lastUsed < c.lastUsed then b else c) cs := rfl
    rw [heq]
    rcases List.mem_cons.mp (ih (if b.lastUsed < c.lastUsed then b else c)) with h | h
    · rw [h]
      split
      · exact List.mem_cons_self _ _
      · exact List.mem_cons_of_mem _ (List.mem_cons_self _ _)
    · exact List.mem_cons_of_mem _ (List.mem_cons_of_mem _ h)

/-- The `reduce` of `getBrowser` returns a slot whose `lastUsed` is minimal
among the pooled slots. -/
theorem selectLRU_min (b : PooledBrowser) (bs : List PooledBrowser) :
    ∀ x ∈ b :: bs, (selectLRU b bs).lastUsed ≤ x.lastUsed := by
  induction bs generalizing b with
  | nil =>
    intro x hx
    rw [List.mem_singleton.mp hx]
    simp [selectLRU]
  | cons c cs ih =>
    intro x hx
    have heq : selectLRU b (c :: cs)
        = selectLRU (if b.lastUsed < c.lastUsed then b else c) cs := rfl
    rw [heq]
    have hhead := ih (if b.lastUsed < c.lastUsed then b else c) _
      (List.mem_cons_self _ _)
    rcases List.mem_cons.mp hx with h | h
    · have hle : (if b.lastUsed < c.lastUsed then b else c).lastUsed ≤ b.lastUsed := by
        split <;> omega
      rw [h]
      omega
    · rcases List.mem_cons.mp h with h | h
      · have hle : (if b.lastUsed < c.lastUsed then b else c).lastUsed ≤ c.lastUsed := by
          split <;> omega
        rw [h]
        omega
      · exact ih _ x (List.mem_cons_of_mem _ h)

/-- Below the cap, `getBrowser` computes the launch-and-append state. -/
theorem getBrowser_eq_below (healthy : Nat → Bool) (now : Nat) (st : PoolState)
    (hlt : (checkBrowserHealth healthy st).browsers.length < MAX_WORKERS) :
    getBrowser healthy now st
      = (st.nextId,
         { browsers := (checkBrowserHealth healthy st).browsers
             ++ [{ id := st.nextId, lastUsed := now }],
           nextId := st.nextId + 1 }) := by
  unfold getBrowser
  rw [if_pos hlt]
  rfl

/-- At the cap, `getBrowser` computes the LRU-update state. -/
theorem getBrowser_eq_at_cap (healthy : Nat → Bool) (now : Nat) (st : PoolState)
    (b0 : PooledBrowser) (bs : List PooledBrowser)
    (hlt : ¬ (checkBrowserHealth healthy st).browsers.length < MAX_WORKERS)
    (hb : (checkBrowserHealth healthy st).browsers = b0 :: bs) :
    getBrowser healthy now st
      = ((selectLRU b0 bs).id,
         { browsers := (b0 :: bs).map (fun x =>
             if x.id = (selectLRU b0 bs).id then { x with lastUsed := now } else x),
           nextId := st.nextId }) := by
  unfold getBrowser
  rw [if_neg hlt, hb]
  rfl

/-- A nonempty sweep result exists whenever the post-sweep pool is still at
the cap. -/
theorem at_cap_nonempty (healthy : Nat → Bool) (st : PoolState)
    (hlt : ¬ (checkBrowserHealth healthy st).browsers.length < MAX_WORKERS) :
    ∃ b0 bs, (checkBrowserHealth healthy st).browsers = b0 :: bs := by
  rcases hb : (checkBrowserHealth healthy st).browsers with _ | ⟨b0, bs⟩
  · exfalso
    rw [hb] at hlt
    simp [MAX_WORKERS] at hlt
  · exact ⟨b0, bs, rfl⟩

/-- `getBrowser` preserves pool well-formedness — in particular the pool
can never grow past the cap. -/
theorem getBrowser_poolWF (healthy : Nat → Bool) (now : Nat) (st : PoolState)
    (h : poolWF st) : poolWF (getBrowser healthy now st).2 := by
  obtain ⟨hlen, hids, hpw⟩ := h
  have hsub : List.Sublist ((checkBrowserHealth healthy st).browsers) st.browsers :=
    List.filter_sublist _
  have hlen' : (checkBrowserHealth healthy st).browsers.length ≤ st.browsers.length :=
    hsub.length_le
  have hids' : ∀ b ∈ (checkBrowserHealth healthy st).browsers, b.id < st.nextId :=
    fun b hb => hids b (hsub.subset hb)
  have hpw' : (checkBrowserHealth healthy st).browsers.Pairwise
      (fun a b => a.id ≠ b.id) := hpw.sublist hsub
  by_cases hlt : (checkBrowserHealth healthy st).browsers.length < MAX_WORKERS
  · rw [getBrowser_eq_below healthy now st hlt]
    refine ⟨?_, ?_, ?_⟩
    · simp only [List.length_append, List.length_singleton]
      omega
    · intro b hb
      rcases List.mem_append.mp hb with hmem | hmem
      · exact Nat.lt_succ_of_lt (hids' b hmem)
      · rw [List.mem_singleton.mp hmem]
        exact Nat.lt_succ_self _
    · rw [List.pairwise_append]
      refine ⟨hpw', List.pairwise_singleton _ _, ?_⟩
      intro a ha b hb
      rw [List.mem_singleton.mp hb]
      exact Nat.ne_of_lt (hids' a ha)
  · obtain ⟨b0, bs, hb⟩ := at_cap_nonempty healthy st hlt
    rw [getBrowser_eq_at_cap healthy now st b0 bs hlt hb]
    have hid_pres : ∀ x : PooledBrowser,
        (if x.id = (selectLRU b0 bs).id then { x with lastUsed := now } else x).id
          = x.id := by
      intro x
      split <;> rfl
    refine ⟨?_, ?_, ?_⟩
    · simp only [List.length_map]
      rw [hb] at hlen'
      omega
    · intro b hbm
      rcases List.mem_map.mp hbm with ⟨y, hy, hye⟩
      rw [← hye, hid_pres]
      rw [hb] at hids'
      exact hids' y hy
    · rw [List.pairwise_map]
      rw [hb] at hpw'
      exact hpw'.imp (fun {a b} hab => by rw [hid_pres, hid_pres]; exact hab)

/-- An identifier failing the health probe is never the one handed out: it
has been evicted by the sweep, and any freshly launched session gets a new
identifier. -/
theorem getBrowser_not_evicted (healthy : Nat → Bool) (now : Nat) (st : PoolState)
    (h : poolWF st) (i : Nat) (hi : healthy i = false)
    (hmem : ∃ b ∈ st.browsers, b.id = i) :
    (getBrowser healthy now st).1 ≠ i := by
  obtain ⟨b1, hb1, hb1i⟩ := hmem
  have hlti : i < st.nextId := hb1i ▸ h.2.1 b1 hb1
  by_cases hlt : (checkBrowserHealth healthy st).browsers.length < MAX_WORKERS
  · rw [getBrowser_eq_below healthy now st hlt]
    exact fun heq => absurd heq.symm (Nat.ne_of_lt hlti)
  · obtain ⟨b0, bs, hb⟩ := at_cap_nonempty healthy st hlt
    have hres : (getBrowser healthy now st).1 = (selectLRU b0 bs).id := by
      rw [getBrowser_eq_at_cap healthy now st b0 bs hlt hb]
    rw [hres]
    have hselmem : selectLRU b0 bs ∈ (checkBrowserHealth healthy st).browsers := by
      rw [hb]
      exact selectLRU_mem b0 bs
    have hhealthy : healthy (selectLRU b0 bs).id = true :=
      (List.mem_filter.mp hselmem).2
    intro heq
    rw [heq, hi] at hhealthy
    exact Bool.false_ne_true hhealthy

/-- Below the cap, `getBrowser` launches a fresh session (the launch
counter's next identifier) and appends it to the pool. -/
theorem getBrowser_below_cap (healthy : Nat → Bool) (now : Nat) (st : PoolState)
    (hlt : (checkBrowserHealth healthy st).browsers.length < MAX_WORKERS) :
    (getBrowser healthy now st).1 = st.nextId
    ∧ (getBrowser healthy now st).2.browsers
      = (checkBrowserHealth healthy st).browsers
          ++ [{ id := st.nextId, lastUsed := now }] := by
  rw [getBrowser_eq_below healthy now st hlt]
  exact ⟨rfl, rfl⟩

/-- At the cap, `getBrowser` returns a pooled session whose `lastUsed` is
minimal, and the pool afterwards holds that session with `lastUsed` updated
to the current instant. -/
theorem getBrowser_at_cap (healthy : Nat → Bool) (now : Nat) (st : PoolState)
    (hlt : ¬ (checkBrowserHealth healthy st).browsers.length < MAX_WORKERS) :
    ∃ b, b ∈ (checkBrowserHealth healthy st).browsers
      ∧ (getBrowser healthy now st).1 = b.id
      ∧ (∀ x ∈ (checkBrowserHealth healthy st).browsers, b.lastUsed ≤ x.lastUsed)
      ∧ { id := b.id, lastUsed := now } ∈ (getBrowser healthy now st).2.browsers := by
  obtain ⟨b0, bs, hb⟩ := at_cap_nonempty healthy st hlt
  rw [getBrowser_eq_at_cap healthy now st b0 bs hlt hb]
  refine ⟨selectLRU b0 bs, ?_, rfl, ?_, ?_⟩
  · rw [hb]
    exact selectLRU_mem b0 bs
  · rw [hb]
    exact selectLRU_min b0 bs
  · have hmem := List.mem_map_of_mem (fun x =>
      if x.id = (selectLRU b0 bs).id then { x with lastUsed := now } else x)
      (selectLRU_mem b0 bs)
    simpa using hmem

/-- The empty pool is well-formed. -/
theorem initialPool_wf : poolWF initialPool := by
  refine ⟨by simp [initialPool, MAX_WORKERS], ?_, ?_⟩
  · intro b hb
    exact absurd hb (List.not_mem_nil b)
  · simp [initialPool]

/-- Any sequence of `getBrowser` calls preserves pool well-formedness. -/
theorem runPool_poolWF (calls : List ((Nat → Bool) × Nat)) (st : PoolState)
    (h : poolWF st) : poolWF (runPool calls st) := by
  induction calls generalizing st with
  | nil => simpa [runPool] using h
  | cons c cs ih =>
    have hstep : runPool (c :: cs) st = runPool cs (getBrowser c.1 c.2 st).2 := rfl
    rw [hstep]
    exact ih _ (getBrowser_poolWF c.1 c.2 st h)

/-- C9. The Resource Pool's set of live renderer sessions never exceeds
the cap of `MAX_WORKERS = 3`, no matter how many `getBrowser` calls are
made; below the cap `getBrowser` creates and appends a fresh session; at
the cap it returns a least-recently-used pooled session after updating its
last-used timestamp; and a session that fails its health probe (and is
thereby evicted) is never the session returned by that call. -/
theorem browser_pool_spec :
    (∀ calls : List ((Nat → Bool) × Nat),
        (runPool calls initialPool).browsers.length ≤ MAX_WORKERS)
    ∧ (∀ (healthy : Nat → Bool) (now : Nat) (st : PoolState), poolWF st →
        poolWF (getBrowser healthy now st).2
        ∧ (∀ i, healthy i = false → (∃ b ∈ st.browsers, b.id = i) →
            (getBrowser healthy now st).1 ≠ i)
        ∧ ((checkBrowserHealth healthy st).browsers.length < MAX_WORKERS →
            (getBrowser healthy now st).1 = st.nextId
            ∧ (getBrowser healthy now st).2.browsers
              = (checkBrowserHealth healthy st).browsers
                  ++ [{ id := st.nextId, lastUsed := now }])
        ∧ (¬ (checkBrowserHealth healthy st).browsers.length < MAX_WORKERS →
            ∃ b, b ∈ (checkBrowserHealth healthy st).browsers
              ∧ (getBrowser healthy now st).1 = b.id
              ∧ (∀ x ∈ (checkBrowserHealth healthy st).browsers,
                  b.lastUsed ≤ x.lastUsed)
              ∧ { id := b.id, lastUsed := now }
                  ∈ (getBrowser healthy now st).2.browsers)) := by
  constructor
  · intro calls
    exact (runPool_poolWF calls initialPool initialPool_wf).1
  · intro healthy now st h
    exact ⟨getBrowser_poolWF healthy now st h,
      getBrowser_not_evicted healthy now st h,
      getBrowser_below_cap healthy now st,
      getBrowser_at_cap healthy now st⟩

/-- C9 witness: a one-session pool whose only session fails its probe; the
call preserves well-formedness and does not return the evicted session. -/
theorem browser_pool_spec_witness :
    poolWF { browsers := [{ id := 0, lastUsed := 3 }], nextId := 1 }
    ∧ (runPool [] initialPool).browsers.length ≤ MAX_WORKERS
    ∧ poolWF (getBrowser (fun _ => false) 5
        { browsers := [{ id := 0, lastUsed := 3 }], nextId := 1 }).2
    ∧ (getBrowser (fun _ => false) 5
        { browsers := [{ id := 0, lastUsed := 3 }], nextId := 1 }).1 ≠ 0 := by
  have hwf : poolWF { browsers := [{ id := 0, lastUsed := 3 }], nextId := 1 } := by
    refine ⟨by simp [MAX_WORKERS], ?_, by simp⟩
    intro b hb
    rw [List.mem_singleton.mp hb]
    exact Nat.zero_lt_one
  refine ⟨hwf, browser_pool_spec.1 [],
    (browser_pool_spec.2 (fun _ => false) 5 _ hwf).1,
    (browser_pool_spec.2 (fun _ => false) 5 _ hwf).2.1 0 rfl
      ⟨{ id := 0, lastUsed := 3 }, by simp, rfl⟩⟩
